import Mathlib

/-!
Verification of `src/ptyrad/utils/common.py`.

The Python module is shallowly embedded: Python values handled by the
dictionary utilities become the inductive `PyVal`; the stateful
`CustomLogger` becomes explicit state passing over `LoggerState` and a
filesystem model `FS`; Python exceptions become `Except PyErr`.
Floating-point inputs are modelled by exact rationals, which agree with
CPython on every value the theorems evaluate.
-/

/-- Kinds of Python exceptions raised by the modelled code paths. -/
inductive PyErr where
  | typeError : PyErr
  | attributeError : PyErr
  | valueError : PyErr
deriving Repr, DecidableEq

/-- A Python value as handled by `safe_get_nested` and `vprint_nested_dict`:
`None`, booleans, integers, strings, lists and string-keyed dicts.
(Floats are omitted from this universe: no dictionary claim evaluates one.)
Dicts are association lists in insertion order with distinct keys, matching
Python dict iteration order. -/
inductive PyVal where
  | null : PyVal
  | bool : Bool → PyVal
  | int : Int → PyVal
  | str : String → PyVal
  | list : List PyVal → PyVal
  | dict : List (String × PyVal) → PyVal

/-- `safe_get_nested(d, keys, default)` from the source: walks `keys`; at each
step, a non-dict current value returns `default`; `d.get(key)` yields the
stored value or `None` when the key is absent; a `None` result returns
`default`; otherwise the walk continues. An exhausted key list returns the
current value. -/
def safe_get_nested : PyVal → List String → PyVal → PyVal
  | d, [], _ => d
  | PyVal.dict entries, key :: keys, default =>
    match (entries.lookup key).getD PyVal.null with
    | PyVal.null => default
    | v => safe_get_nested v keys default
  | _, _ :: _, default => default

/-- A key path that is fully present: every key exists, every intermediate
value is a dict, and no looked-up value (including the final one) is `None`.
This is the precondition vocabulary of the claim, stated independently of the
traversal code. -/
inductive PathOk : PyVal → List String → PyVal → Prop where
  | last {entries : List (String × PyVal)} {k : String} {v : PyVal} :
      entries.lookup k = some v → v ≠ PyVal.null →
      PathOk (PyVal.dict entries) [k] v
  | step {entries : List (String × PyVal)} {k : String} {w v : PyVal}
      {ks : List String} :
      entries.lookup k = some w → w ≠ PyVal.null → PathOk w ks v →
      PathOk (PyVal.dict entries) (k :: ks) v

theorem safe_get_nested_nil (d default : PyVal) :
    safe_get_nested d [] default = d := by
  cases d <;> rfl

theorem safe_get_nested_step {entries : List (String × PyVal)} {k : String}
    {w : PyVal} (keys : List String) (default : PyVal)
    (hl : entries.lookup k = some w) (hw : w ≠ PyVal.null) :
    safe_get_nested (PyVal.dict entries) (k :: keys) default =
      safe_get_nested w keys default := by
  cases w <;> first | exact absurd rfl hw | simp [safe_get_nested, hl]

/-- C10: with an empty key sequence, `safe_get_nested` returns the first
argument unchanged — never the default — even when it is not a mapping or is
`None`. -/
theorem safe_get_nested_empty_keys :
    ∀ (d default : PyVal), safe_get_nested d [] default = d :=
  safe_get_nested_nil

/-- C5 counterexample: the stored value at a fully present path can be `None`,
and then `safe_get_nested` returns the supplied default, not the exact stored
value the claim promises. Here `d = {"a": None}`, path `["a"]`, default `42`:
the call returns `42`, which differs from the stored `None`. -/
theorem safe_get_nested_null_leaf_cex :
    safe_get_nested (PyVal.dict [("a", PyVal.null)]) ["a"] (PyVal.int 42)
        = PyVal.int 42
      ∧ PyVal.int 42 ≠ PyVal.null :=
  ⟨rfl, fun h => PyVal.noConfusion h⟩

theorem safe_get_nested_of_pathOk (d : PyVal) (keys : List String)
    (v default : PyVal) (h : PathOk d keys v) :
    safe_get_nested d keys default = v := by
  induction h with
  | last hl hv =>
    rw [safe_get_nested_step [] default hl hv]
    exact safe_get_nested_nil _ _
  | step hl hw _hp ih =>
    rename_i entries k w v' ks
    rw [safe_get_nested_step ks default hl hw]
    exact ih

theorem safe_get_nested_default_of_not_pathOk (keys : List String) :
    ∀ (d default : PyVal), keys ≠ [] → (¬ ∃ v, PathOk d keys v) →
      safe_get_nested d keys default = default := by
  induction keys with
  | nil => intro d default h _; exact absurd rfl h
  | cons k ks ih =>
    intro d default _ hno
    cases d with
    | dict entries =>
      cases hl : entries.lookup k with
      | none => simp [safe_get_nested, hl]
      | some w =>
        cases ks with
        | nil =>
          cases w <;>
            first
              | (simp [safe_get_nested, hl]; done)
              | exact absurd ⟨_, PathOk.last hl nofun⟩ hno
        | cons k2 ks2 =>
          cases w <;>
            first
              | (simp [safe_get_nested, hl]; done)
              | (rw [safe_get_nested_step (k2 :: ks2) default hl nofun]
                 refine ih _ default nofun (fun hex => ?_)
                 obtain ⟨v, hv⟩ := hex
                 exact hno ⟨v, PathOk.step hl nofun hv⟩)
    | null => rfl
    | bool b => rfl
    | int n => rfl
    | str s => rfl
    | list l => rfl

/-- C5 (amended): on a fully present path whose looked-up values — including
the stored final value — are all non-`None`, `safe_get_nested` returns the
exact stored value; on every other non-empty path (missing key, non-mapping
intermediate, or a `None` looked-up value) it returns the supplied default.
It is a total function, so it never raises. -/
theorem safe_get_nested_spec :
    (∀ (d : PyVal) (keys : List String) (v default : PyVal),
        PathOk d keys v → safe_get_nested d keys default = v)
      ∧ (∀ (d : PyVal) (keys : List String) (default : PyVal),
          keys ≠ [] → (¬ ∃ v, PathOk d keys v) →
          safe_get_nested d keys default = default) :=
  ⟨fun d keys v default h => safe_get_nested_of_pathOk d keys v default h,
   fun d keys default h hno => safe_get_nested_default_of_not_pathOk keys d default h hno⟩

/-- Witness for C5: the amended theorem applied at concrete inputs.
Path `["a", "b"]` in `{"a": {"b": 5}}` yields the stored `5`; the missing
path `["a"]` in the non-mapping `3` yields the default `9`. -/
theorem safe_get_nested_spec_witness :
    safe_get_nested
        (PyVal.dict [("a", PyVal.dict [("b", PyVal.int 5)])]) ["a", "b"]
        (PyVal.int 0) = PyVal.int 5
      ∧ safe_get_nested (PyVal.int 3) ["a"] (PyVal.int 9) = PyVal.int 9 :=
  ⟨safe_get_nested_spec.1 _ _ _ _
      (PathOk.step rfl nofun (PathOk.last rfl nofun)),
   safe_get_nested_spec.2 _ _ _ nofun
      (by rintro ⟨v, hv⟩; cases hv)⟩

/-- `not isinstance(v, (dict, list))` from the source: true exactly on
non-container scalars. -/
def isNotContainer : PyVal → Bool
  | PyVal.dict _ => false
  | PyVal.list _ => false
  | _ => true

/-- `all(not isinstance(v, (dict, list)) for v in value.values())` from the
source. -/
def isFlatLeaf (entries : List (String × PyVal)) : Bool :=
  entries.all (fun p => isNotContainer p.2)

mutual

/-- Python `repr` on the modelled value universe: `None`, `True`/`False`,
integer literals, single-quoted strings (escape sequences are outside the
modelled subset), bracketed lists and braced dicts. -/
def pyRepr : PyVal → String
  | PyVal.null => "None"
  | PyVal.bool b => if b then "True" else "False"
  | PyVal.int n => toString n
  | PyVal.str s => "\x27" ++ s ++ "\x27"
  | PyVal.list xs => "[" ++ String.intercalate ", " (pyReprList xs) ++ "]"
  | PyVal.dict es => "\x7b" ++ String.intercalate ", " (pyReprEntries es) ++ "\x7d"

def pyReprList : List PyVal → List String
  | [] => []
  | v :: vs => pyRepr v :: pyReprList vs

def pyReprEntries : List (String × PyVal) → List String
  | [] => []
  | (k, v) :: es => ("\x27" ++ k ++ "\x27: " ++ pyRepr v) :: pyReprEntries es

end

/-- Python `str` on the modelled value universe: the string itself for
strings, `repr` otherwise (they coincide on every other modelled value). -/
def pyStr : PyVal → String
  | PyVal.str s => s
  | v => pyRepr v

/-- `"    " * indent` from the source. -/
def indentStr (n : Nat) : String := String.join (List.replicate n "    ")

/-- The inline rendering `", ".join(f"{k}: {repr(v)}" ...)` from the source. -/
def flatLine (entries : List (String × PyVal)) : String :=
  String.intercalate ", " (entries.map (fun p => p.1 ++ ": " ++ pyRepr p.2))

/-- One `vprint` call: a single output line when verbose, nothing otherwise. -/
def vline (verbose : Bool) (s : String) : List String :=
  if verbose then [s] else []

/-- `vprint_nested_dict(d, indent, verbose, leaf_inline_threshold)` from the
source, as the list of lines it prints. A dict value is rendered inline when
it is a flat leaf with at most `thr` entries; otherwise the key is printed
alone and the recursion descends with `indent + 1` — the source does not pass
`leaf_inline_threshold` to the recursive call, so the recursion uses the
default `6`. -/
def vprint_nested_dict : List (String × PyVal) → Nat → Bool → Nat → List String
  | [], _, _, _ => []
  | (key, value) :: rest, indent, verbose, thr =>
    (match value with
     | PyVal.dict m =>
       if isFlatLeaf m ∧ m.length ≤ thr then
         vline verbose (indentStr indent ++ key ++ ": \x7b" ++ flatLine m ++ "\x7d")
       else
         vline verbose (indentStr indent ++ key ++ ":")
           ++ vprint_nested_dict m (indent + 1) verbose 6
     | PyVal.list xs =>
       if xs.all isNotContainer then
         vline verbose (indentStr indent ++ key ++ ": " ++ pyStr (PyVal.list xs))
       else
         vline verbose (indentStr indent ++ key ++ ": " ++ pyRepr (PyVal.list xs))
     | v => vline verbose (indentStr indent ++ key ++ ": " ++ pyRepr v))
      ++ vprint_nested_dict rest indent verbose thr

/-- The printer as the claim words it: identical to `vprint_nested_dict`
except that the recursive call receives the same threshold `thr` instead of
the default `6`. Used only to compare against the code's behaviour. -/
def vprintNestedDictSameThr : List (String × PyVal) → Nat → Bool → Nat → List String
  | [], _, _, _ => []
  | (key, value) :: rest, indent, verbose, thr =>
    (match value with
     | PyVal.dict m =>
       if isFlatLeaf m ∧ m.length ≤ thr then
         vline verbose (indentStr indent ++ key ++ ": \x7b" ++ flatLine m ++ "\x7d")
       else
         vline verbose (indentStr indent ++ key ++ ":")
           ++ vprintNestedDictSameThr m (indent + 1) verbose thr
     | PyVal.list xs =>
       if xs.all isNotContainer then
         vline verbose (indentStr indent ++ key ++ ": " ++ pyStr (PyVal.list xs))
       else
         vline verbose (indentStr indent ++ key ++ ": " ++ pyRepr (PyVal.list xs))
     | v => vline verbose (indentStr indent ++ key ++ ": " ++ pyRepr v))
      ++ vprintNestedDictSameThr rest indent verbose thr

/-- C6 (amended): at each level, an entry whose value is a sub-mapping is
rendered inline on a single line if and only if all of its values are
non-container scalars and its entry count is at most the threshold in force
at that level; otherwise the key is rendered alone and the printer recurses
at depth+1 — but with the default threshold 6, not the caller's `thr`, which
the source does not propagate. -/
theorem vprint_nested_dict_step (key : String) (m rest : List (String × PyVal))
    (indent thr : Nat) (verbose : Bool) :
    vprint_nested_dict ((key, PyVal.dict m) :: rest) indent verbose thr =
      (if isFlatLeaf m ∧ m.length ≤ thr then
        vline verbose (indentStr indent ++ key ++ ": \x7b" ++ flatLine m ++ "\x7d")
      else
        vline verbose (indentStr indent ++ key ++ ":")
          ++ vprint_nested_dict m (indent + 1) verbose 6)
      ++ vprint_nested_dict rest indent verbose thr := by
  rw [vprint_nested_dict]

/-- C6 counterexample: with threshold 1 on `{"a": {"b": {"x": 1, "y": 2}}}`,
the code recurses with the default threshold 6 and renders the depth-1
sub-mapping `{"x": 1, "y": 2}` inline even though its entry count 2 exceeds
the configured threshold 1; the claimed same-threshold recursion renders it
expanded, so the outputs differ. -/
theorem vprint_nested_dict_threshold_cex :
    vprint_nested_dict
        [("a", PyVal.dict [("b", PyVal.dict [("x", PyVal.int 1), ("y", PyVal.int 2)])])]
        0 true 1
      = ["a:", "    b: \x7bx: 1, y: 2\x7d"]
    ∧ vprintNestedDictSameThr
        [("a", PyVal.dict [("b", PyVal.dict [("x", PyVal.int 1), ("y", PyVal.int 2)])])]
        0 true 1
      = ["a:", "    b:", "        x: 1", "        y: 2"]
    ∧ (["a:", "    b: \x7bx: 1, y: 2\x7d"] : List String)
        ≠ ["a:", "    b:", "        x: 1", "        y: 2"] := by
  refine ⟨?_, ?_, by decide⟩
  · simp only [vprint_nested_dict, isFlatLeaf, isNotContainer, flatLine, indentStr,
      vline, pyRepr, pyReprEntries, List.all_cons, List.all_nil, List.map_cons,
      List.map_nil, List.length_cons, List.length_nil, if_true, if_false]
    decide
  · simp only [vprintNestedDictSameThr, isFlatLeaf, isNotContainer, flatLine, indentStr,
      vline, pyRepr, pyReprEntries, List.all_cons, List.all_nil, List.map_cons,
      List.map_nil, List.length_cons, List.length_nil, if_true, if_false]
    decide

/-- `str.zfill(w)` from the source, for non-negative content: left-pads with
zeros to width `w`. -/
def zfill (s : String) (w : Nat) : String :=
  if s.length < w then String.mk (List.replicate (w - s.length) '0') ++ s else s

/-- A Python float embedded as the exact fraction `num / den` (every float is
a rational, and every numeric literal in the claims is exactly representable).
`den` is kept positive by every constructor used below. -/
structure Frac where
  num : Int
  den : Nat

/-- Python float floor-division `x // m` by a positive integer `m`, exactly:
`⌊num / (den * m)⌋` via Euclidean division. -/
def Frac.fdiv (x : Frac) (m : Nat) : Int :=
  x.num / ((x.den * m : Nat) : Int)

/-- Python float modulo `x % m` by a positive integer `m`, exactly:
`x - m * (x // m)`, again a fraction over the same denominator. -/
def Frac.fmod (x : Frac) (m : Nat) : Frac :=
  ⟨x.num - ((x.den * m : Nat) : Int) * x.fdiv m, x.den⟩

/-- Python `f"{x:.3f}"` for the non-negative values it receives here: rounds
`1000·x` to the nearest integer and prints three decimals. (Ties round up
here; CPython rounds the underlying binary double, which never produces a
decimal tie on the values these theorems evaluate.) -/
def fmt3 (x : Frac) : String :=
  let n := ((x.num * 2000 + (x.den : Int)) / (2 * (x.den : Int))).toNat
  toString (n / 1000) ++ "." ++ zfill (toString (n % 1000)) 3

/-- `parse_sec_to_time_str(seconds)` from the source: decomposes by `// 86400`,
`(% 86400) // 3600`, `(% 3600) // 60`, `% 60` and renders from the largest
non-zero unit down, seconds with three decimals. -/
def parse_sec_to_time_str (seconds : Frac) : String :=
  let days := seconds.fdiv 86400
  let hours := (seconds.fmod 86400).fdiv 3600
  let minutes := (seconds.fmod 3600).fdiv 60
  let secs := seconds.fmod 60
  if 0 < days then
    toString days ++ " day " ++ toString hours ++ " hr "
      ++ toString minutes ++ " min " ++ fmt3 secs ++ " sec"
  else if 0 < hours then
    toString hours ++ " hr " ++ toString minutes ++ " min " ++ fmt3 secs ++ " sec"
  else if 0 < minutes then
    toString minutes ++ " min " ++ fmt3 secs ++ " sec"
  else
    fmt3 secs ++ " sec"

theorem Frac.fdiv_eq_zero {x : Frac} {m : Nat} (h0 : 0 ≤ x.num)
    (h : x.num < (x.den : Int) * m) : x.fdiv m = 0 := by
  apply Int.ediv_eq_zero_of_lt h0
  push_cast
  omega

theorem Frac.fmod_eq_self {x : Frac} {m : Nat} (h0 : 0 ≤ x.num)
    (h : x.num < (x.den : Int) * m) : x.fmod m = x := by
  obtain ⟨n, d⟩ := x
  simp [Frac.fmod, Frac.fdiv_eq_zero h0 h]

theorem Frac.fdiv_pos {x : Frac} {m : Nat} (hd : 0 < x.den) (hm : 0 < m)
    (h : (x.den : Int) * m ≤ x.num) : 0 < x.fdiv m := by
  have hpos : (0 : Int) < ((x.den * m : Nat) : Int) := by positivity
  have h1 : (1 : Int) ≤ x.num / ((x.den * m : Nat) : Int) :=
    (Int.le_ediv_iff_mul_le hpos).mpr (by push_cast; omega)
  show (0 : Int) < x.num / ((x.den * m : Nat) : Int)
  omega

/-- C7: `parse_sec_to_time_str` decomposes a non-negative number of seconds by
integer division by 86400/3600/60 and renders from the largest non-zero unit
down through seconds with three decimals. The three example values evaluate
exactly as claimed (`90061.5 = 180123/2`), and the four range facts show which
unit leads in each regime. -/
theorem parse_sec_to_time_str_spec :
    parse_sec_to_time_str ⟨0, 1⟩ = "0.000 sec"
  ∧ parse_sec_to_time_str ⟨65, 1⟩ = "1 min 5.000 sec"
  ∧ parse_sec_to_time_str ⟨180123, 2⟩ = "1 day 1 hr 1 min 1.500 sec"
  ∧ (∀ x : Frac, 0 < x.den → 0 ≤ x.num → x.num < 60 * (x.den : Int) →
      parse_sec_to_time_str x = fmt3 x ++ " sec")
  ∧ (∀ x : Frac, 0 < x.den → 60 * (x.den : Int) ≤ x.num →
      x.num < 3600 * (x.den : Int) →
      parse_sec_to_time_str x =
        toString (x.fdiv 60) ++ " min " ++ fmt3 (x.fmod 60) ++ " sec")
  ∧ (∀ x : Frac, 0 < x.den → 3600 * (x.den : Int) ≤ x.num →
      x.num < 86400 * (x.den : Int) →
      parse_sec_to_time_str x =
        toString (x.fdiv 3600) ++ " hr " ++ toString ((x.fmod 3600).fdiv 60)
          ++ " min " ++ fmt3 (x.fmod 60) ++ " sec")
  ∧ (∀ x : Frac, 0 < x.den → 86400 * (x.den : Int) ≤ x.num →
      parse_sec_to_time_str x =
        toString (x.fdiv 86400) ++ " day " ++ toString ((x.fmod 86400).fdiv 3600)
          ++ " hr " ++ toString ((x.fmod 3600).fdiv 60) ++ " min "
          ++ fmt3 (x.fmod 60) ++ " sec") := by
  refine ⟨by decide, by decide, by decide, ?_, ?_, ?_, ?_⟩
  · intro x hden h0 hlt
    have hd : x.fdiv 86400 = 0 := Frac.fdiv_eq_zero h0 (by omega)
    have hm86 : x.fmod 86400 = x := Frac.fmod_eq_self h0 (by omega)
    have hh : x.fdiv 3600 = 0 := Frac.fdiv_eq_zero h0 (by omega)
    have hm36 : x.fmod 3600 = x := Frac.fmod_eq_self h0 (by omega)
    have hmin : x.fdiv 60 = 0 := Frac.fdiv_eq_zero h0 (by omega)
    have hm60 : x.fmod 60 = x := Frac.fmod_eq_self h0 (by omega)
    simp [parse_sec_to_time_str, hd, hm86, hh, hm36, hmin, hm60]
  · intro x hden h1 h2
    have h0 : 0 ≤ x.num := by omega
    have hd : x.fdiv 86400 = 0 := Frac.fdiv_eq_zero h0 (by omega)
    have hm86 : x.fmod 86400 = x := Frac.fmod_eq_self h0 (by omega)
    have hh : x.fdiv 3600 = 0 := Frac.fdiv_eq_zero h0 (by omega)
    have hm36 : x.fmod 3600 = x := Frac.fmod_eq_self h0 (by omega)
    have hmin : 0 < x.fdiv 60 := Frac.fdiv_pos hden (by omega) (by omega)
    simp [parse_sec_to_time_str, hd, hm86, hh, hm36, hmin]
  · intro x hden h1 h2
    have h0 : 0 ≤ x.num := by omega
    have hd : x.fdiv 86400 = 0 := Frac.fdiv_eq_zero h0 (by omega)
    have hm86 : x.fmod 86400 = x := Frac.fmod_eq_self h0 (by omega)
    have hh : 0 < x.fdiv 3600 := Frac.fdiv_pos hden (by omega) (by omega)
    simp [parse_sec_to_time_str, hd, hm86, hh]
  · intro x hden h1
    have h0 : 0 ≤ x.num := by omega
    have hd : 0 < x.fdiv 86400 := Frac.fdiv_pos hden (by omega) (by omega)
    simp [parse_sec_to_time_str, hd]

/-- Witness for C7: the range facts of the theorem applied at 65 seconds and
at 2.5 seconds (`5/2`), with the hypotheses discharged numerically. -/
theorem parse_sec_to_time_str_spec_witness :
    parse_sec_to_time_str ⟨65, 1⟩ =
        toString (Frac.fdiv ⟨65, 1⟩ 60) ++ " min " ++ fmt3 (Frac.fmod ⟨65, 1⟩ 60) ++ " sec"
      ∧ parse_sec_to_time_str ⟨5, 2⟩ = fmt3 ⟨5, 2⟩ ++ " sec" :=
  ⟨parse_sec_to_time_str_spec.2.2.2.2.1 ⟨65, 1⟩ (by decide) (by decide) (by decide),
   parse_sec_to_time_str_spec.2.2.2.1 ⟨5, 2⟩ (by decide) (by decide) (by decide)⟩

/-- ASCII lower-casing of one character, as `str.lower` acts on the key
suffixes compared here. -/
def asciiLower (c : Char) : Char :=
  if 'A' ≤ c ∧ c ≤ 'Z' then Char.ofNat (c.toNat + 32) else c

/-- `key[-2:].lower()` from the source: the last at-most-two characters,
lower-cased. -/
def lastTwoLower (k : String) : String :=
  String.mk (((k.toList.reverse.take 2).reverse).map asciiLower)

/-- `key[-2:].lower() == "lr"` from the source. -/
def isLrKey (k : String) : Bool :=
  lastTwoLower k == "lr"

/-- Number of decimal digits of `n` (for positive `n`). -/
def decDigits (n : Nat) : Nat := (toString n).length

/-- `round(a / b)` for a fraction with positive denominator, ties away from
zero upward: `⌊a/b + 1/2⌋`. CPython rounds the binary double half-to-even in
the last kept digit; the values evaluated here are not ties. -/
def roundHalfUp (a : Int) (b : Nat) : Int :=
  (2 * a + (b : Int)) / (2 * (b : Int))

/-- The decimal exponent `e` with `10^e ≤ num/den < 10^(e+1)`, for a positive
fraction: digit count of the integer part when the value is at least one,
otherwise minus the number of leading zero positions of the reciprocal. -/
def decExpPos (num : Int) (den : Nat) : Int :=
  if (den : Int) ≤ num then (decDigits (num / (den : Int)).toNat : Int) - 1
  else
    let c := ((den : Int) + num - 1) / num
    if c ≤ 1 then 0 else -(decDigits (c - 1).toNat : Int)

/-- `round((num/den) · 10^p)` as an integer, for a positive fraction. -/
def scaledMant (num : Int) (den : Nat) (p : Int) : Int :=
  if 0 ≤ p then roundHalfUp (num * (10 : Int) ^ p.toNat) den
  else roundHalfUp num (den * 10 ^ (-p).toNat)

/-- Removes trailing `0` characters, as `%g` formatting strips them. -/
def stripTrailingZeros (s : String) : String :=
  String.mk ((s.toList.reverse.dropWhile (fun c => c == '0')).reverse)

/-- Python `f"{x:.1e}"` for a positive fraction `num/den`: one mantissa
decimal, sign and two-digit exponent. -/
def fmtE1Pos (num : Int) (den : Nat) : String :=
  let e := decExpPos num den
  let m0 := scaledMant num den (1 - e)
  let me := if (100 : Int) ≤ m0 then ((10 : Int), e + 1) else (m0, e)
  let mn := me.1.toNat
  let e2 := me.2
  toString (mn / 10) ++ "." ++ toString (mn % 10) ++ "e"
    ++ (if e2 < 0 then "-" else "+") ++ zfill (toString e2.natAbs) 2

/-- Python `f"{x:.1e}"` on the embedded float. -/
def fmtE1 (x : Frac) : String :=
  if x.num = 0 then "0.0e+00"
  else if x.num < 0 then "-" ++ fmtE1Pos (-x.num) x.den
  else fmtE1Pos x.num x.den

/-- Python `f"{x:.3g}"` for a positive fraction: three significant digits,
fixed notation when the decimal exponent lies in `[-4, 3)` and scientific
notation otherwise, trailing zeros (and a bare decimal point) stripped. -/
def fmtG3Pos (num : Int) (den : Nat) : String :=
  let e := decExpPos num den
  let m0 := scaledMant num den (2 - e)
  let me := if (1000 : Int) ≤ m0 then ((100 : Int), e + 1) else (m0, e)
  let m := me.1.toNat
  let e2 := me.2
  if -4 ≤ e2 ∧ e2 < 3 then
    if 2 ≤ e2 then toString m
    else if 0 ≤ e2 then
      let k := (2 - e2).toNat
      let ip := m / 10 ^ k
      let fr := m % 10 ^ k
      let frs := stripTrailingZeros (zfill (toString fr) k)
      toString ip ++ (if frs = "" then "" else "." ++ frs)
    else
      let frs := stripTrailingZeros
        (String.mk (List.replicate ((-e2).toNat - 1) '0') ++ toString m)
      "0." ++ frs
  else
    let fr := stripTrailingZeros (zfill (toString (m % 100)) 2)
    toString (m / 100) ++ (if fr = "" then "" else "." ++ fr) ++ "e"
      ++ (if e2 < 0 then "-" else "+") ++ zfill (toString e2.natAbs) 2

/-- Python `f"{x:.3g}"` on the embedded float. -/
def fmtG3 (x : Frac) : String :=
  if x.num = 0 then "0"
  else if x.num < 0 then "-" ++ fmtG3Pos (-x.num) x.den
  else fmtG3Pos x.num x.den

/-- A hyperparameter value as `parse_hypertune_params_to_str` receives it:
int, float, bool (an `int` subclass in Python) or string. -/
inductive HyperVal where
  | int : Int → HyperVal
  | float : Frac → HyperVal
  | bool : Bool → HyperVal
  | str : String → HyperVal

/-- One entry of the hypertune label: keys ending case-insensitively in "lr"
format the value with `f"{value:.1e}"` (a `ValueError` on a string value);
otherwise ints, floats and bools format with `f"{value:.3g}"`; any other
value keeps its literal string form. -/
def fmtHyperEntry (k : String) (v : HyperVal) : Except PyErr String :=
  if isLrKey k then
    match v with
    | HyperVal.int n => Except.ok (fmtE1 ⟨n, 1⟩)
    | HyperVal.float x => Except.ok (fmtE1 x)
    | HyperVal.bool b => Except.ok (fmtE1 ⟨if b then 1 else 0, 1⟩)
    | HyperVal.str _ => Except.error PyErr.valueError
  else
    match v with
    | HyperVal.int n => Except.ok (fmtG3 ⟨n, 1⟩)
    | HyperVal.float x => Except.ok (fmtG3 x)
    | HyperVal.bool b => Except.ok (fmtG3 ⟨if b then 1 else 0, 1⟩)
    | HyperVal.str s => Except.ok s

/-- `parse_hypertune_params_to_str(hypertune_params)` from the source:
concatenates `"_<name>_<formatted-value>"` over the entries in iteration
order, propagating the first formatting error. -/
def parse_hypertune_params_to_str : List (String × HyperVal) → Except PyErr String
  | [] => Except.ok ""
  | (k, v) :: rest =>
    match fmtHyperEntry k v with
    | Except.error e => Except.error e
    | Except.ok s =>
      match parse_hypertune_params_to_str rest with
      | Except.error e => Except.error e
      | Except.ok r => Except.ok ("_" ++ k ++ "_" ++ s ++ r)

/-- C8: the hypertune label is the concatenation, in iteration order, of
`"_<name>_<formatted-value>"` — shown by the splitting law over list
concatenation — and on `{"lr": 0.0001, "batch": 32}` it evaluates exactly to
`"_lr_1.0e-04_batch_32"`: the "lr"-suffixed key uses scientific notation with
one decimal digit and the numeric value uses three significant digits. -/
theorem parse_hypertune_params_spec :
    parse_hypertune_params_to_str
        [("lr", HyperVal.float ⟨1, 10000⟩), ("batch", HyperVal.int 32)]
      = Except.ok "_lr_1.0e-04_batch_32"
  ∧ (∀ ps qs : List (String × HyperVal),
      parse_hypertune_params_to_str (ps ++ qs) =
        match parse_hypertune_params_to_str ps with
        | Except.error e => Except.error e
        | Except.ok a =>
          match parse_hypertune_params_to_str qs with
          | Except.error e => Except.error e
          | Except.ok b => Except.ok (a ++ b)) := by
  constructor
  · rfl
  · intro ps qs
    induction ps with
    | nil =>
      cases hq : parse_hypertune_params_to_str qs with
      | error e => simp [parse_hypertune_params_to_str, hq]
      | ok b =>
        simp only [List.nil_append, parse_hypertune_params_to_str, hq]
        cases b with
        | mk data => rfl
    | cons hd tl ih =>
      obtain ⟨k, v⟩ := hd
      cases he : fmtHyperEntry k v with
      | error e => simp [parse_hypertune_params_to_str, he]
      | ok s =>
        have hstep : parse_hypertune_params_to_str (((k, v) :: tl) ++ qs)
            = match parse_hypertune_params_to_str (tl ++ qs) with
              | Except.error e => Except.error e
              | Except.ok r => Except.ok ("_" ++ k ++ "_" ++ s ++ r) := by
          show parse_hypertune_params_to_str ((k, v) :: (tl ++ qs)) = _
          simp only [parse_hypertune_params_to_str, he]
        have hstep2 : parse_hypertune_params_to_str ((k, v) :: tl)
            = match parse_hypertune_params_to_str tl with
              | Except.error e => Except.error e
              | Except.ok r => Except.ok ("_" ++ k ++ "_" ++ s ++ r) := by
          simp only [parse_hypertune_params_to_str, he]
        rw [hstep, ih, hstep2]
        cases ht : parse_hypertune_params_to_str tl with
        | error e => rfl
        | ok a =>
          cases hq : parse_hypertune_params_to_str qs with
          | error e => rfl
          | ok b => simp [String.append_assoc]

/-- An observable output of one `vprint` call: a record emitted through the
named logger, or a direct `print` fallback. -/
inductive VOut where
  | logged : String → VOut
  | printed : List String → VOut

/-- `vprint(*args, verbose=...)` from the source: gated first by `verbose`,
then by the distributed-rank check
`not dist.is_available() or not dist.is_initialized() or dist.get_rank() == 0`;
routed through the named logger when it has handlers, else plain `print`.
Returns the outputs produced; an empty list means no output and no side
effect. -/
def vprint (args : List String) (verbose : Bool)
    (distAvailable distInitialized : Bool) (rank : Nat)
    (loggerHasHandlers : Bool) : List VOut :=
  if verbose && (!distAvailable || !distInitialized || rank == 0) then
    if loggerHasHandlers then
      [VOut.logged (String.intercalate " " args)]
    else
      [VOut.printed args]
  else
    []

/-- C9: with `verbose = False`, `vprint` produces no output and no side
effect, for every argument list, logger configuration and distributed-context
state. -/
theorem vprint_silent_when_not_verbose :
    ∀ (args : List String) (distAvailable distInitialized : Bool)
      (rank : Nat) (loggerHasHandlers : Bool),
      vprint args false distAvailable distInitialized rank loggerHasHandlers
        = [] :=
  fun _ _ _ _ _ => rfl

/-- The filesystem as `flush_to_file` touches it: created directories and
text files as lists of lines. -/
structure FS where
  dirs : List String
  files : List (String × List String)

/-- Replace the contents of `p` (or create it) in an association-list
filesystem. -/
def updateFile (p : String) (c : List String) :
    List (String × List String) → List (String × List String)
  | [] => [(p, c)]
  | (q, d) :: rest => if q = p then (q, c) :: rest else (q, d) :: updateFile p c rest

/-- Contents of file `p`, when it exists. -/
def lookupFile (fs : FS) (p : String) : Option (List String) :=
  fs.files.lookup p

/-- The state of one `CustomLogger` instance together with the shared
`logging.getLogger('PtyRAD')` logger it configures.
`log_buffer` is the in-memory `StringIO` as formatted lines;
`file_handler` is the instance attribute (`none` = never assigned, reading
it raises `AttributeError`; `some none` = assigned `None`);
`attached_file` is the file handler currently attached to the logger, if
any. `pre_date` and `pre_jobid` model the source fields `prefix_date` and
`prefix_jobid`. -/
structure LoggerState where
  log_file : Option String
  log_dir : String
  flush_file : Bool
  pre_date : Bool
  pre_jobid : Nat
  append_to_file : Bool
  show_timestamp : Bool
  log_buffer : List String
  file_handler : Option (Option String)
  attached_file : Option String

/-- The record format `'%(asctime)s - %(message)s'` when `show_timestamp`,
else `'%(message)s'`. -/
def formatLine (show_ts : Bool) (asctime msg : String) : String :=
  if show_ts then asctime ++ " - " ++ msg else msg

/-- One `logger.info(msg)` (reached via `vprint` whenever the logger has
handlers): the formatted record goes to the in-memory buffer handler and,
when a file handler is attached, is appended to that file. The console
handler's output is not tracked. -/
def emitInfo (st : LoggerState) (fs : FS) (msg asctime : String) :
    LoggerState × FS :=
  let line := formatLine st.show_timestamp asctime msg
  ({ st with log_buffer := st.log_buffer ++ [line] },
   match st.attached_file with
   | some p => { fs with files := updateFile p (((fs.files.lookup p).getD []) ++ [line]) fs.files }
   | none => fs)

/-- A sequence of `logger.info` calls, each a `(message, asctime)` pair. -/
def logMany (st : LoggerState) (fs : FS) :
    List (String × String) → LoggerState × FS
  | [] => (st, fs)
  | (m, t) :: rest =>
    let r := emitInfo st fs m t
    logMany r.1 r.2 rest

/-- Python `str` on an optional string: `"None"` for `None`. -/
def pyOptStr : Option String → String
  | none => "None"
  | some s => s

/-- Python `str` on a bool. -/
def pyBoolStr (b : Bool) : String := if b then "True" else "False"

/-- The nine `vprint` messages emitted at the end of `CustomLogger.__init__`,
verbatim from the source. -/
def bannerMsgs (log_file : Option String) (log_dir : String)
    (flush_file pd : Bool) (pj : Nat) (app sts : Bool) : List String :=
  ["### PtyRAD Logger configuration ###",
   "log_file       = \x27" ++ pyOptStr log_file
     ++ "\x27. If log_file = None, no log file will be created.",
   "log_dir        = \x27" ++ log_dir
     ++ "\x27. If log_dir = \x27auto\x27, then log will be saved to `output_path` or \x27logs/\x27.",
   "flush_file     = " ++ pyBoolStr flush_file
     ++ ". Automatically set to True if `log_file is not None`",
   "prefix_date    = " ++ pyBoolStr pd
     ++ ". If true, a datetime str is prefixed to the `log_file`.",
   "prefix_jobid   = \x27" ++ toString pj
     ++ "\x27. If not 0, it\x27ll be prefixed to the log file. This is used for hypertune mode with multiple GPUs.",
   "append_to_file = " ++ pyBoolStr app
     ++ ". If true, logs will be appended to the existing file. If false, the log file will be overwritten.",
   "show_timestamp = " ++ pyBoolStr sts
     ++ ". If true, the printed information will contain a timestamp.",
   " "]

/-- `CustomLogger.__init__` from the source: clears any previous handlers,
stores the configuration, sets `flush_file = (log_file is not None)`, attaches
console and buffer handlers, and then prints the configuration banner through
`vprint` — which routes through the logger's own handlers, so the banner lines
land in the fresh buffer. `t0` is the construction-time `asctime`. The
instance attribute `file_handler` is never assigned here. -/
def CustomLogger.init (log_file : Option String) (log_dir : String)
    (pd : Bool) (pj : Nat) (app sts : Bool) (t0 : String) : LoggerState :=
  let st : LoggerState :=
    { log_file := log_file, log_dir := log_dir, flush_file := log_file.isSome,
      pre_date := pd, pre_jobid := pj, append_to_file := app,
      show_timestamp := sts, log_buffer := [], file_handler := none,
      attached_file := none }
  (logMany st ⟨[], []⟩
    ((bannerMsgs log_file log_dir log_file.isSome pd pj app sts).map
      (fun m => (m, t0)))).1

/-- Lines 104–108 of the source: start from `self.log_file`, prepend
`str(prefix_jobid).zfill(2) + '_'` when the job id is non-zero, then prepend
`get_date() + '_'` when `prefix_date` is set. Each prepend concatenates a
`str` with the current value, so a `None` value raises `TypeError` exactly as
`str + None` does in Python. -/
def resolveLogName (log_file : Option String) (pj : Nat) (pd : Bool)
    (today : String) : Except PyErr (Option String) :=
  match (if pj ≠ 0 then
          match log_file with
          | none => Except.error PyErr.typeError
          | some s => Except.ok (some (zfill (toString pj) 2 ++ "_" ++ s))
         else Except.ok log_file) with
  | Except.error e => Except.error e
  | Except.ok lf =>
    if pd then
      match lf with
      | none => Except.error PyErr.typeError
      | some s => Except.ok (some (today ++ "_" ++ s))
    else Except.ok lf

/-- `os.path.join(a, b)` for the relative components used here: empty `a`
yields `b`, a trailing separator is not doubled, otherwise a `/` is
inserted. -/
def joinPath (a b : String) : String :=
  if a = "" then b
  else if a.toList.getLast? == some '/' then a ++ b
  else a ++ "/" ++ b

/-- `CustomLogger.flush_to_file(log_dir, append_to_file)` from the source:
resolves the directory (argument, else configured value, with `'auto'`
meaning `'logs'`) and append mode, computes the prefixed file name (which
raises `TypeError` when a prefix is concatenated with a `None` `log_file`),
then, when `flush_file` is set: creates the directory, writes the whole
buffer to the file (appending to prior content in mode `'a'`, replacing it in
mode `'w'`), clears the buffer, attaches a file handler that appends future
records, and emits its notice through `vprint` — the notice therefore lands
in the just-cleared buffer and in the file. Otherwise it assigns
`file_handler = None` and emits the not-flushed notice. `today` is
`get_date()`, `now` the `asctime` of the notice records. -/
def CustomLogger.flush_to_file (st : LoggerState) (fs : FS)
    (log_dir_arg : Option String) (append_arg : Option Bool)
    (today now : String) : Except PyErr (LoggerState × FS) :=
  let dir := match log_dir_arg with
    | none => if st.log_dir = "auto" then "logs" else st.log_dir
    | some d => d
  let app := append_arg.getD st.append_to_file
  match resolveLogName st.log_file st.pre_jobid st.pre_date today with
  | Except.error e => Except.error e
  | Except.ok lf =>
    if st.flush_file then
      match lf with
      | none => Except.error PyErr.typeError
      | some name =>
        let path := joinPath dir name
        let fs1 : FS := { fs with dirs := if fs.dirs.contains dir then fs.dirs else dir :: fs.dirs }
        let prior := if app then (fs1.files.lookup path).getD [] else []
        let fs2 : FS := { fs1 with files := updateFile path (prior ++ st.log_buffer) fs1.files }
        let st1 := { st with log_buffer := [], file_handler := some (some path),
                             attached_file := some path }
        let r1 := emitInfo st1 fs2
          ("### Log file is flushed (created) as " ++ path ++ " ###") now
        let r2 := emitInfo r1.1 r1.2 " " now
        Except.ok r2
    else
      let st1 := { st with file_handler := some none }
      let r1 := emitInfo st1 fs
        ("### Log file is not flushed (created) because log_file is set to "
          ++ pyOptStr st.log_file ++ " ###") now
      let r2 := emitInfo r1.1 r1.2 " " now
      Except.ok r2

/-- `CustomLogger.close` from the source: reads `self.file_handler` — an
`AttributeError` when `flush_to_file` has never assigned it — and, when it
holds a handler, flushes and closes it, detaches it from the logger and
clears the attribute. -/
def CustomLogger.close (st : LoggerState) : Except PyErr LoggerState :=
  match st.file_handler with
  | none => Except.error PyErr.attributeError
  | some none => Except.ok st
  | some (some p) =>
    Except.ok { st with file_handler := some none,
                        attached_file := if st.attached_file = some p then none
                                         else st.attached_file }

theorem lookup_updateFile (p : String) (c : List String) :
    ∀ files : List (String × List String), (updateFile p c files).lookup p = some c := by
  intro files
  induction files with
  | nil => simp [updateFile, List.lookup]
  | cons hd rest ih =>
    obtain ⟨q, d⟩ := hd
    by_cases h : q = p
    · subst h
      simp [updateFile, List.lookup]
    · have hne : (p == q) = false := beq_eq_false_iff_ne.mpr (Ne.symm h)
      simp [updateFile, h, List.lookup, hne, ih]

theorem logMany_no_file :
    ∀ (msgs : List (String × String)) (st : LoggerState) (fs : FS),
      st.attached_file = none →
      logMany st fs msgs =
        ({ st with log_buffer := st.log_buffer
            ++ msgs.map (fun p => formatLine st.show_timestamp p.2 p.1) }, fs) := by
  intro msgs
  induction msgs with
  | nil => intro st fs _; simp [logMany]
  | cons hd tl ih =>
    intro st fs h
    obtain ⟨m, t⟩ := hd
    have h1 : (emitInfo st fs m t).1.attached_file = none := by simp [emitInfo, h]
    have h2 : (emitInfo st fs m t).2 = fs := by simp [emitInfo, h]
    simp only [logMany]
    rw [ih _ _ h1, h2]
    simp [emitInfo]

theorem CustomLogger.init_eq (lf : Option String) (ld : String) (pd : Bool)
    (pj : Nat) (app sts : Bool) (t0 : String) :
    CustomLogger.init lf ld pd pj app sts t0 =
      { log_file := lf, log_dir := ld, flush_file := lf.isSome, pre_date := pd,
        pre_jobid := pj, append_to_file := app, show_timestamp := sts,
        log_buffer := (bannerMsgs lf ld lf.isSome pd pj app sts).map
          (fun m => formatLine sts t0 m),
        file_handler := none, attached_file := none } := by
  simp only [CustomLogger.init]
  rw [logMany_no_file _ _ _ rfl]
  simp [List.map_map, Function.comp]

/-- The jobid and date prefixes as `flush_to_file` actually assembles them for
a present `log_file`: the jobid prefix is applied first, then the date prefix
is prepended in front of it. -/
def resolvedName (base : String) (pj : Nat) (pd : Bool) (today : String) : String :=
  let s1 := if pj ≠ 0 then zfill (toString pj) 2 ++ "_" ++ base else base
  if pd then today ++ "_" ++ s1 else s1

theorem resolveLogName_some (base today : String) (pj : Nat) (pd : Bool) :
    resolveLogName (some base) pj pd today =
      Except.ok (some (resolvedName base pj pd today)) := by
  by_cases hj : pj = 0 <;> by_cases hd : pd <;>
    simp [resolveLogName, resolvedName, hj, hd]

/-- The path the flushed file handler points at, when flushing succeeded. -/
def flushedPath (r : Except PyErr (LoggerState × FS)) : Option String :=
  match r with
  | Except.ok (st, _) => st.attached_file
  | Except.error _ => none

/-- The logger buffer after the call, when flushing succeeded. -/
def flushedBuffer (r : Except PyErr (LoggerState × FS)) : Option (List String) :=
  match r with
  | Except.ok (st, _) => some st.log_buffer
  | Except.error _ => none

/-- C1: with `log_file = None` under the constructor defaults
(`prefix_date = True`), `flush_to_file` is not a no-op: the file-name
computation concatenates the date prefix with `None` and raises `TypeError`
before the `flush_file` guard is ever consulted (and likewise with a non-zero
`prefix_jobid`). The claimed no-op branch is reached only when both prefixes
are disabled. -/
theorem flush_to_file_none_log_file_raises :
    CustomLogger.flush_to_file
        (CustomLogger.init none "auto" true 0 true true "t0")
        ⟨[], []⟩ none none "20261012" "t1"
      = Except.error PyErr.typeError
  ∧ CustomLogger.flush_to_file
        (CustomLogger.init none "auto" false 3 true true "t0")
        ⟨[], []⟩ none none "20261012" "t1"
      = Except.error PyErr.typeError :=
  ⟨rfl, rfl⟩

/-- C2: `__init__` never assigns the `file_handler` attribute, so calling
`close()` on a logger that has never flushed reads a missing attribute and
raises `AttributeError` instead of being the claimed safe no-op. -/
theorem close_before_flush_raises :
    CustomLogger.close
        (CustomLogger.init (some "output.log") "auto" true 0 true true "t0")
      = Except.error PyErr.attributeError :=
  rfl

/-- C3 counterexample: with `prefix_jobid = 3`, `prefix_date` set and date
`20261012`, the flushed file is `logs/20261012_03_output.log` — the date
prefix is leftmost — not the claimed `logs/03_20261012_output.log` with the
job id leftmost. -/
theorem flush_to_file_path_layout_cex :
    flushedPath (CustomLogger.flush_to_file
        (CustomLogger.init (some "output.log") "auto" true 3 true true "t0")
        ⟨[], []⟩ none none "20261012" "t1")
      = some "logs/20261012_03_output.log"
  ∧ ("logs/20261012_03_output.log" : String) ≠ "logs/03_20261012_output.log" :=
  ⟨rfl, by decide⟩

/-- C3 (amended): for a present `log_file`, non-zero `prefix_jobid` and
`prefix_date` set, the flushed path is
`<log_dir>/<YYYYMMDD>_<2-digit-zero-padded-jobid>_<log_file_basename>`:
the date prefix is leftmost, before the job-id prefix. -/
theorem flush_to_file_path_layout (base dir today t0 t1 : String) (jobid : Nat)
    (app sts : Bool) (fs : FS) (h : jobid ≠ 0) :
    flushedPath (CustomLogger.flush_to_file
        (CustomLogger.init (some base) dir true jobid app sts t0)
        fs none none today t1)
      = some (joinPath (if dir = "auto" then "logs" else dir)
          (today ++ "_" ++ (zfill (toString jobid) 2 ++ "_" ++ base))) := by
  rw [CustomLogger.init_eq]
  simp only [CustomLogger.flush_to_file, resolveLogName_some, resolvedName, h,
    if_true, Option.isSome_some]
  simp [flushedPath, emitInfo, h]

/-- Witness for C3 (amended), at `jobid = 7` in a non-`auto` directory. -/
theorem flush_to_file_path_layout_witness :
    flushedPath (CustomLogger.flush_to_file
        (CustomLogger.init (some "output.log") "mydir" true 7 false false "t0")
        ⟨[], []⟩ none none "20261012" "t1")
      = some (joinPath (if ("mydir" : String) = "auto" then "logs" else "mydir")
          ("20261012" ++ "_" ++ (zfill (toString 7) 2 ++ "_" ++ "output.log"))) :=
  flush_to_file_path_layout "output.log" "mydir" "20261012" "t0" "t1" 7
    false false ⟨[], []⟩ (by decide)

/-- The two notice records `flush_to_file` itself routes through the logger
after attaching the file handler (they land in the cleared buffer and in the
file). -/
def flushNotices (path : String) (sts : Bool) (now : String) : List String :=
  [formatLine sts now ("### Log file is flushed (created) as " ++ path ++ " ###"),
   formatLine sts now " "]

/-- C4 counterexample: `__init__` itself logs nine configuration-banner lines
into the fresh buffer, so after one record the buffer is not just that one
formatted line; and `flush_to_file` logs its own notices after clearing the
buffer, so the buffer is not empty after a flush. (Here `show_timestamp` is
off, so the one record formats to itself.) -/
theorem customLogger_buffer_cex :
    (logMany (CustomLogger.init (some "output.log") "auto" false 0 true false "t0")
        ⟨[], []⟩ [("hello", "t1")]).1.log_buffer ≠ ["hello"]
  ∧ flushedBuffer (CustomLogger.flush_to_file
        (logMany (CustomLogger.init (some "output.log") "auto" false 0 true false "t0")
          ⟨[], []⟩ [("hello", "t1")]).1
        (logMany (CustomLogger.init (some "output.log") "auto" false 0 true false "t0")
          ⟨[], []⟩ [("hello", "t1")]).2
        none none "20261012" "t2")
      ≠ some [] := by
  constructor
  · decide
  · decide

/-- C4 (amended): for a present `log_file`, after construction the buffer
already holds the nine banner lines; logging N records appends exactly those
N formatted lines in order and leaves the filesystem untouched. One
`flush_to_file` writes prior contents (append mode) or nothing (truncate
mode) followed by the entire buffer to the resolved path, attaches the file
handler, and then its own two notice lines land in both the file and the
freshly cleared buffer — so the file holds prior ++ buffer ++ notices and the
buffer holds exactly the two notices, not nothing. A record logged afterwards
is appended to the file with no further flush call. -/
theorem customLogger_flush_cycle (base dir : String) (pd : Bool) (pj : Nat)
    (app sts : Bool) (t0 today now m2 t2 : String)
    (msgs : List (String × String)) (fs0 : FS) :
    (logMany (CustomLogger.init (some base) dir pd pj app sts t0) fs0 msgs).1.log_buffer
        = (bannerMsgs (some base) dir true pd pj app sts).map (formatLine sts t0)
          ++ msgs.map (fun p => formatLine sts p.2 p.1)
    ∧ (logMany (CustomLogger.init (some base) dir pd pj app sts t0) fs0 msgs).2 = fs0
    ∧ ∃ st2 fs2,
        CustomLogger.flush_to_file
            (logMany (CustomLogger.init (some base) dir pd pj app sts t0) fs0 msgs).1
            (logMany (CustomLogger.init (some base) dir pd pj app sts t0) fs0 msgs).2
            none none today now
          = Except.ok (st2, fs2)
        ∧ st2.attached_file
            = some (joinPath (if dir = "auto" then "logs" else dir)
                (resolvedName base pj pd today))
        ∧ st2.file_handler
            = some (some (joinPath (if dir = "auto" then "logs" else dir)
                (resolvedName base pj pd today)))
        ∧ st2.log_buffer
            = flushNotices (joinPath (if dir = "auto" then "logs" else dir)
                (resolvedName base pj pd today)) sts now
        ∧ lookupFile fs2 (joinPath (if dir = "auto" then "logs" else dir)
              (resolvedName base pj pd today))
            = some ((if app then (lookupFile fs0 (joinPath (if dir = "auto" then "logs" else dir)
                  (resolvedName base pj pd today))).getD [] else [])
                ++ (logMany (CustomLogger.init (some base) dir pd pj app sts t0) fs0 msgs).1.log_buffer
                ++ flushNotices (joinPath (if dir = "auto" then "logs" else dir)
                    (resolvedName base pj pd today)) sts now)
        ∧ (emitInfo st2 fs2 m2 t2).1.attached_file
            = some (joinPath (if dir = "auto" then "logs" else dir)
                (resolvedName base pj pd today))
        ∧ lookupFile (emitInfo st2 fs2 m2 t2).2
              (joinPath (if dir = "auto" then "logs" else dir)
                (resolvedName base pj pd today))
            = some ((if app then (lookupFile fs0 (joinPath (if dir = "auto" then "logs" else dir)
                  (resolvedName base pj pd today))).getD [] else [])
                ++ (logMany (CustomLogger.init (some base) dir pd pj app sts t0) fs0 msgs).1.log_buffer
                ++ flushNotices (joinPath (if dir = "auto" then "logs" else dir)
                    (resolvedName base pj pd today)) sts now
                ++ [formatLine sts t2 m2]) := by
  have hinit := CustomLogger.init_eq (some base) dir pd pj app sts t0
  have hlm := logMany_no_file msgs (CustomLogger.init (some base) dir pd pj app sts t0)
    fs0 (by rw [hinit])
  rw [hlm, hinit]
  refine ⟨by simp, rfl, ?_⟩
  simp only [CustomLogger.flush_to_file, resolveLogName_some, Option.isSome_some,
    Option.getD_none, Option.getD_some]
  refine ⟨_, _, rfl, ?_, ?_, ?_, ?_, ?_, ?_⟩
  · simp [emitInfo]
  · simp [emitInfo]
  · simp [emitInfo, flushNotices]
  · simp [emitInfo, lookupFile, lookup_updateFile, flushNotices, List.append_assoc]
  · simp [emitInfo]
  · simp [emitInfo, lookupFile, lookup_updateFile, flushNotices, List.append_assoc]
